import Mathlib

/-!
Shallow embedding of the BlinkLoad repository core:
src/src/blink_detector.py (class BlinkDetector) and src/src/ear.py
(function calculate_ear).

Python floats are modelled as rationals.  A Python call that raises an
uncaught exception is modelled as returning `none`; in particular
`BlinkDetector.update` raises a TypeError when it subtracts
`start_timestamp = None` from a float (reachable only when
`consec_frames = 0` or when the counter/start invariant is broken), so
`update` returns an `Option`.

For `calculate_ear` the two Euclidean norms are irrational in general,
so the function is embedded as a relation `EarRel` between the inputs
and the returned value; `some q` models the finite float `q` and `none`
models a non-finite float (inf or nan, produced by the division when the
horizontal distance is exactly zero — numpy float division raises no
exception).  The EAR stability index of `get_metrics` is stored as the
variance `esi_sq`; the code stores its square root, a strictly monotone
function of `esi_sq` on nonnegative values, so equalities of `esi_sq`
correspond exactly to equalities of the printed esi.
-/

/-- One entry of BlinkDetector.blink_events: a dict with
timestamp and duration keys (blink_detector.py line 51). -/
structure BlinkEvent where
  timestamp : ℚ
  duration : ℚ
  deriving DecidableEq

/-- One entry of BlinkDetector.ear_open_events: a dict with
timestamp and ear keys (blink_detector.py line 65). -/
structure EarOpenEvent where
  timestamp : ℚ
  ear : ℚ
  deriving DecidableEq

/-- The mutable state of class BlinkDetector (blink_detector.py lines 18-25). -/
structure BlinkDetector where
  threshold : ℚ
  consec_frames : ℕ
  counter : ℕ
  total_blinks : ℕ
  blink_events : List BlinkEvent
  ear_open_events : List EarOpenEvent
  start_timestamp : Option ℚ
  deriving DecidableEq

/-- Module constant EAR_THRESHOLD = 0.22 (blink_detector.py line 4). -/
def EAR_THRESHOLD : ℚ := 22 / 100

/-- Module constant EAR_CONSEC_FRAMES = 3 (blink_detector.py line 5). -/
def EAR_CONSEC_FRAMES : ℕ := 3

/-- Module constant WINDOW_SIZE_SEC = 30 (blink_detector.py line 6). -/
def WINDOW_SIZE_SEC : ℚ := 30

/-- Module constant MIN_BLINK_DURATION = 100 (blink_detector.py line 9). -/
def MIN_BLINK_DURATION : ℚ := 100

/-- Module constant MAX_BLINK_DURATION = 400 (blink_detector.py line 10). -/
def MAX_BLINK_DURATION : ℚ := 400

/-- BlinkDetector.__init__ (blink_detector.py lines 18-25): plain field
assignments, no validation of the configuration. -/
def mkBlinkDetector (threshold : ℚ) (consec_frames : ℕ) : BlinkDetector :=
  { threshold := threshold
    consec_frames := consec_frames
    counter := 0
    total_blinks := 0
    blink_events := []
    ear_open_events := []
    start_timestamp := none }

/-- The tail of the open branch of BlinkDetector.update
(blink_detector.py lines 58-68): reset counter and start_timestamp,
then collect the average EAR when it is above the threshold. -/
def openStep (s1 : BlinkDetector) (thr avg_ear current_time : ℚ) : BlinkDetector :=
  let s2 := { s1 with counter := 0, start_timestamp := none }
  if thr < avg_ear then
    { s2 with ear_open_events := s2.ear_open_events ++ [⟨current_time, avg_ear⟩] }
  else s2

/-- BlinkDetector.update (blink_detector.py lines 27-70) with an explicit
current_time.  Returns `none` for the uncaught TypeError raised when
counter >= consec_frames while start_timestamp is None. -/
def update (s : BlinkDetector) (left_ear right_ear current_time : ℚ) :
    Option (BlinkDetector × Bool) :=
  if left_ear < s.threshold ∧ right_ear < s.threshold then
    some ({ s with
              counter := s.counter + 1
              start_timestamp :=
                if s.counter = 0 then some current_time else s.start_timestamp },
          true)
  else if s.consec_frames ≤ s.counter then
    match s.start_timestamp with
    | none => none
    | some st =>
      let duration := (current_time - st) * 1000
      let s1 :=
        if MIN_BLINK_DURATION ≤ duration ∧ duration ≤ MAX_BLINK_DURATION then
          { s with
              total_blinks := s.total_blinks + 1
              blink_events := s.blink_events ++ [⟨current_time, duration⟩] }
        else s
      some (openStep s1 s.threshold ((left_ear + right_ear) / 2) current_time, false)
  else
    some (openStep s s.threshold ((left_ear + right_ear) / 2) current_time, false)

/-- The window-membership test used by the eviction filters
(blink_detector.py lines 83-84 and 149). -/
def inWindow (current_time ts : ℚ) : Bool :=
  decide (current_time - ts ≤ WINDOW_SIZE_SEC)

/-- The housekeeping step of get_metrics (blink_detector.py lines 83-84):
drop expired entries from both event lists. -/
def evict (s : BlinkDetector) (current_time : ℚ) : BlinkDetector :=
  { s with
      blink_events := s.blink_events.filter (fun e => inWindow current_time e.timestamp)
      ear_open_events := s.ear_open_events.filter (fun e => inWindow current_time e.timestamp) }

/-- Consecutive timestamp differences t[i] - t[i-1] for i = 1 .. n-1
(blink_detector.py lines 117-120 and 127-128). -/
def gaps (ts : List ℚ) : List ℚ :=
  List.zipWith (fun a b => b - a) ts ts.tail

/-- The burst-counting loop of get_metrics (blink_detector.py lines
125-133), folded over the list of consecutive gaps with the in_burst
flag as accumulator. -/
def countBursts : Bool → List ℚ → ℕ
  | _, [] => 0
  | in_burst, g :: rest =>
    if g ≤ 2 then (if in_burst then 0 else 1) + countBursts true rest
    else countBursts false rest

/-- The dict returned by get_metrics.  The code stores the square root
of esi_sq in the esi slot; everything else is verbatim. -/
structure Metrics where
  br : ℚ
  mbd : ℚ
  bdv : ℚ
  ibi : ℚ
  bbi : ℚ
  esi_sq : ℚ
  deriving DecidableEq

/-- The computation part of BlinkDetector.get_metrics (blink_detector.py
lines 86-139), reading the already-evicted state. -/
def computeMetrics (s : BlinkDetector) : Metrics :=
  let count := s.blink_events.length
  let esi_sq :=
    if 1 < s.ear_open_events.length then
      let ears := s.ear_open_events.map EarOpenEvent.ear
      let mean_ear := ears.sum / (ears.length : ℚ)
      (ears.map (fun e => (e - mean_ear) ^ 2)).sum / (ears.length : ℚ)
    else 0
  if count = 0 then
    { br := 0, mbd := 0, bdv := 0, ibi := 0, bbi := 0, esi_sq := esi_sq }
  else
    let br := (count : ℚ) / (WINDOW_SIZE_SEC / 60)
    let durations := s.blink_events.map BlinkEvent.duration
    let mbd := durations.sum / (count : ℚ)
    let bdv :=
      if 1 < count then (durations.map (fun d => (d - mbd) ^ 2)).sum / (count : ℚ)
      else 0
    if 1 < count then
      let intervals := gaps (s.blink_events.map BlinkEvent.timestamp)
      { br := br, mbd := mbd, bdv := bdv
        ibi := intervals.sum / (intervals.length : ℚ)
        bbi := (countBursts false (gaps (s.blink_events.map BlinkEvent.timestamp)) : ℚ) / (count : ℚ)
        esi_sq := esi_sq }
    else
      { br := br, mbd := mbd, bdv := bdv, ibi := 0, bbi := 0, esi_sq := esi_sq }

/-- BlinkDetector.get_metrics (blink_detector.py lines 72-139): evict,
then compute the metrics from the evicted state. -/
def get_metrics (s : BlinkDetector) (current_time : ℚ) : BlinkDetector × Metrics :=
  let s1 := evict s current_time
  (s1, computeMetrics s1)

/-- BlinkDetector.get_window_count (blink_detector.py lines 141-150):
refresh only blink_events, return its length. -/
def get_window_count (s : BlinkDetector) (current_time : ℚ) : BlinkDetector × ℕ :=
  let bes := s.blink_events.filter (fun e => inWindow current_time e.timestamp)
  ({ s with blink_events := bes }, bes.length)

/-- Feed a list of (left_ear, right_ear, current_time) samples through
update, propagating an uncaught exception as none. -/
def runUpdates (s : BlinkDetector) : List (ℚ × ℚ × ℚ) → Option BlinkDetector
  | [] => some s
  | (l, r, t) :: rest =>
    match update s l r t with
    | none => none
    | some (s1, _) => runUpdates s1 rest

/-- The counter/closure-start invariant stated in the spec (section 3):
the counter is positive exactly when a closure start time is recorded. -/
def CounterInv (s : BlinkDetector) : Prop :=
  0 < s.counter ↔ s.start_timestamp ≠ none

/-- One 2-D normalized landmark, as read from
landmarks.landmark[idx].x and .y (ear.py lines 33-39). -/
structure Landmark where
  x : ℚ
  y : ℚ
  deriving DecidableEq

/-- landmarks.landmark[idx] scaled to pixel coordinates (ear.py lines
33, 38-39); none models the IndexError on an out-of-range index. -/
def getPoint (lms : List Landmark) (w h : ℚ) (idx : ℕ) : Option (ℚ × ℚ) :=
  (lms.get? idx).map (fun p => (p.x * w, p.y * h))

/-- The point lookups of calculate_ear in source order: the two
horizontal points, then the two vertical pairs (ear.py lines 33-40).
none when any lookup raises IndexError. -/
def resolvePoints (lms : List Landmark) (hIdx : ℕ × ℕ) (vIdx : (ℕ × ℕ) × (ℕ × ℕ))
    (w h : ℚ) : Option ((ℚ × ℚ) × (ℚ × ℚ) × (ℚ × ℚ) × (ℚ × ℚ) × (ℚ × ℚ) × (ℚ × ℚ)) := do
  let p1 ← getPoint lms w h hIdx.1
  let p4 ← getPoint lms w h hIdx.2
  let p2 ← getPoint lms w h vIdx.1.1
  let p6 ← getPoint lms w h vIdx.1.2
  let p3 ← getPoint lms w h vIdx.2.1
  let p5 ← getPoint lms w h vIdx.2.2
  pure (p1, p4, p2, p6, p3, p5)

/-- Squared Euclidean distance between two points. -/
def dist2 (p q : ℚ × ℚ) : ℚ :=
  (p.1 - q.1) ^ 2 + (p.2 - q.2) ^ 2

/-- d is np.linalg.norm(p - q): the nonnegative square root of the
squared distance (ear.py lines 43-47). -/
def IsDist (p q : ℚ × ℚ) (d : ℚ) : Prop :=
  0 ≤ d ∧ d ^ 2 = dist2 p q

/-- calculate_ear (ear.py lines 14-54) as a relation between the inputs
and the returned value, because the two Euclidean norms are irrational
in general.  `some q` models the finite float q; `none` models the
non-finite float (inf or nan) produced by the final division when the
horizontal distance is exactly zero, which numpy returns without
raising, so it is not caught by the except clause.  An out-of-range
index raises IndexError, caught on line 52, giving 0.0. -/
def EarRel (lms : List Landmark) (hIdx : ℕ × ℕ) (vIdx : (ℕ × ℕ) × (ℕ × ℕ))
    (w h : ℚ) (result : Option ℚ) : Prop :=
  match resolvePoints lms hIdx vIdx w h with
  | none => result = some 0
  | some (p1, p4, p2, p6, p3, p5) =>
    ∃ v_dist1 v_dist2 h_dist : ℚ,
      IsDist p2 p6 v_dist1 ∧ IsDist p3 p5 v_dist2 ∧ IsDist p1 p4 h_dist ∧
      (if h_dist = 0 then result = none
       else result = some ((v_dist1 + v_dist2) / (2 * h_dist)))

/-- C3 scenario: four frames with both EARs at 0.10, at 30 fps. -/
def c3_closed : List (ℚ × ℚ × ℚ) :=
  [(1/10, 1/10, 0), (1/10, 1/10, 1/30), (1/10, 1/10, 2/30), (1/10, 1/10, 3/30)]

/-- C5 scenario: eighteen frames with both EARs at 0.10, at 30 fps. -/
def c5_closed : List (ℚ × ℚ × ℚ) :=
  (List.range 18).map (fun k => (1/10, 1/10, (k : ℚ) / 30))

/-- C1 witness state: a detector three frames into a closure that
started at time 0. -/
def c1_state : BlinkDetector :=
  { mkBlinkDetector (22/100) 3 with counter := 3, start_timestamp := some 0 }

/-- C4 states: a detector holding a single accepted event, and one
holding two accepted events. -/
def c4_single : BlinkDetector :=
  { mkBlinkDetector EAR_THRESHOLD EAR_CONSEC_FRAMES with blink_events := [⟨0, 150⟩] }

def c4_pair : BlinkDetector :=
  { mkBlinkDetector EAR_THRESHOLD EAR_CONSEC_FRAMES with
      blink_events := [⟨0, 150⟩, ⟨4, 200⟩] }

/-- C9 witness: the state reached from a fresh detector by one closed
sample at time 5. -/
def c9_s1 : BlinkDetector :=
  { mkBlinkDetector (22/100) 3 with counter := 1, start_timestamp := some 5 }

/-- C7 counterexample input: all indices valid, vertical distances 1,
horizontal distance 2 ^ (-20), a degenerate near-zero-width eye. -/
def earLms : List Landmark :=
  [⟨0, 0⟩, ⟨1 / 2 ^ 20, 0⟩, ⟨0, 1⟩]

/-! Helper lemmas. -/

lemma openStep_counter (s1 : BlinkDetector) (thr avg t : ℚ) :
    (openStep s1 thr avg t).counter = 0 := by
  simp only [openStep]
  split <;> rfl

lemma openStep_start (s1 : BlinkDetector) (thr avg t : ℚ) :
    (openStep s1 thr avg t).start_timestamp = none := by
  simp only [openStep]
  split <;> rfl

lemma openStep_total (s1 : BlinkDetector) (thr avg t : ℚ) :
    (openStep s1 thr avg t).total_blinks = s1.total_blinks := by
  simp only [openStep]
  split <;> rfl

lemma openStep_blinks (s1 : BlinkDetector) (thr avg t : ℚ) :
    (openStep s1 thr avg t).blink_events = s1.blink_events := by
  simp only [openStep]
  split <;> rfl

lemma filter_filter_same {α : Type} (p : α → Bool) (l : List α) :
    (l.filter p).filter p = l.filter p := by
  induction l with
  | nil => rfl
  | cons a l ih =>
    by_cases h : p a <;> simp [List.filter_cons, h, ih]

lemma evict_evict (s : BlinkDetector) (now : ℚ) :
    evict (evict s now) now = evict s now := by
  simp [evict, filter_filter_same]

lemma gaps_length (ts : List ℚ) : (gaps ts).length = ts.length - 1 := by
  cases ts with
  | nil => rfl
  | cons a l => simp [gaps]

lemma gaps_sum (a : ℚ) (l : List ℚ) :
    (gaps (a :: l)).sum = (a :: l).getLast?.getD 0 - a := by
  induction l generalizing a with
  | nil => simp [gaps]
  | cons b l ih =>
    have h := ih b
    simp only [gaps, List.tail_cons, List.zipWith_cons_cons] at h ⊢
    rw [List.sum_cons, h, List.getLast?_cons_cons]
    ring

lemma sq_unique {a b : ℚ} (ha : 0 ≤ a) (hb : 0 ≤ b) (h : a ^ 2 = b ^ 2) : a = b := by
  have h2 : (a - b) * (a + b) = 0 := by linear_combination h
  rcases mul_eq_zero.mp h2 with h3 | h3
  · linarith
  · linarith

lemma getPoint_eq_none (lms : List Landmark) (w h : ℚ) (i : ℕ)
    (hi : lms.length ≤ i) : getPoint lms w h i = none := by
  unfold getPoint
  rw [List.get?_eq_none.mpr hi]
  rfl

/-! Claim theorems. -/

/-- C3: with threshold 0.23 and minConsecutiveFrames 3, four closed
frames at 30 fps (both EARs 0.10) followed by EARs 0.30 on the fifth
frame make the fifth update call return false, set totalBlinks to 1 and
append one event of duration 400/3 ms (about 133 ms), which lies within
the accepted duration bounds. -/
theorem c3_thirty_fps_scenario :
    ((runUpdates (mkBlinkDetector (23/100) 3) c3_closed).bind
        (fun s4 => update s4 (3/10) (3/10) (4/30))).map
        (fun p => (p.2, p.1.total_blinks, p.1.blink_events.map BlinkEvent.duration))
      = some (false, 1, [400/3]) ∧
    MIN_BLINK_DURATION ≤ 400/3 ∧ (400/3 : ℚ) ≤ MAX_BLINK_DURATION := by
  refine ⟨?_, ?_, ?_⟩
  · norm_num [c3_closed, runUpdates, update, openStep, mkBlinkDetector,
      MIN_BLINK_DURATION, MAX_BLINK_DURATION]
  · norm_num [MIN_BLINK_DURATION]
  · norm_num [MAX_BLINK_DURATION]

/-- C5: eighteen consecutive closed frames at 30 fps (600 ms of closure)
followed by a reopening sample leave totalBlinks at 0, although the
frame count 18 exceeds EAR_CONSEC_FRAMES. -/
theorem c5_long_closure_rejected :
    (runUpdates (mkBlinkDetector EAR_THRESHOLD EAR_CONSEC_FRAMES) c5_closed).map
        (fun s => s.counter) = some 18 ∧
    EAR_CONSEC_FRAMES < 18 ∧
    ((runUpdates (mkBlinkDetector EAR_THRESHOLD EAR_CONSEC_FRAMES) c5_closed).bind
        (fun s => update s (3/10) (3/10) (3/5))).map
        (fun p => p.1.total_blinks) = some 0 := by
  refine ⟨?_, by norm_num [EAR_CONSEC_FRAMES], ?_⟩ <;>
    norm_num [c5_closed, runUpdates, update, openStep, mkBlinkDetector, List.range_succ,
      EAR_THRESHOLD, EAR_CONSEC_FRAMES, MIN_BLINK_DURATION, MAX_BLINK_DURATION]

/-- C6 counterexample: constructing a detector with the invalid negative
threshold -1 does not fail: it returns a detector storing threshold -1,
and that detector processes a sample without error. -/
theorem c6_counterexample :
    (mkBlinkDetector (-1) 3).threshold = -1 ∧
    (update (mkBlinkDetector (-1) 3) (1/2) (1/2) 0).isSome = true := by
  constructor
  · rfl
  · norm_num [mkBlinkDetector, update, openStep]

/-- C6 amended: construction performs no validation; for any invalid
negative threshold and any consec_frames of at least 1 the constructor
returns a detector holding exactly the given configuration, and that
detector processes any sample without raising. -/
theorem c6_amended_no_validation (thr : ℚ) (cf : ℕ) (l r t : ℚ)
    (hthr : thr < 0) (hcf : 1 ≤ cf) :
    (mkBlinkDetector thr cf).threshold = thr ∧
    (mkBlinkDetector thr cf).consec_frames = cf ∧
    (update (mkBlinkDetector thr cf) l r t).isSome = true := by
  refine ⟨rfl, rfl, ?_⟩
  rw [update]
  by_cases h1 : l < (mkBlinkDetector thr cf).threshold ∧ r < (mkBlinkDetector thr cf).threshold
  · rw [if_pos h1]
    rfl
  · rw [if_neg h1]
    have h2 : ¬ (mkBlinkDetector thr cf).consec_frames ≤ (mkBlinkDetector thr cf).counter := by
      show ¬ (cf ≤ 0)
      omega
    rw [if_neg h2]
    rfl

/-- C6 witness for the amended theorem at threshold -1, consec 3. -/
theorem c6_amended_witness :
    (mkBlinkDetector (-1) 3).threshold = -1 ∧
    (mkBlinkDetector (-1) 3).consec_frames = 3 ∧
    (update (mkBlinkDetector (-1) 3) (1/3) (1/3) 7).isSome = true :=
  c6_amended_no_validation (-1) 3 (1/3) (1/3) 7 (by norm_num) (by norm_num)

/-- C8: get_metrics called twice with the same now and no intervening
update returns for the second call exactly the state and metrics of the
first call: eviction followed by recomputation is idempotent. -/
theorem c8_metrics_idempotent (s : BlinkDetector) (now : ℚ) :
    get_metrics (get_metrics s now).1 now = get_metrics s now := by
  simp only [get_metrics]
  rw [evict_evict]

/-- C10: get_metrics and get_window_count keep threshold, consec_frames,
counter, start_timestamp and total_blinks unchanged; their only state
change is filtering expired entries out of blink_events (both) and
ear_open_events (get_metrics only; get_window_count leaves that list
untouched), so each resulting list is a sublist of the original: no
event is added, mutated or reordered. -/
theorem c10_reads_only_evict (s : BlinkDetector) (t1 t2 : ℚ) :
    ((get_metrics s t1).1.threshold = s.threshold ∧
     (get_metrics s t1).1.consec_frames = s.consec_frames ∧
     (get_metrics s t1).1.counter = s.counter ∧
     (get_metrics s t1).1.start_timestamp = s.start_timestamp ∧
     (get_metrics s t1).1.total_blinks = s.total_blinks ∧
     (get_metrics s t1).1.blink_events
       = s.blink_events.filter (fun e => inWindow t1 e.timestamp) ∧
     (get_metrics s t1).1.ear_open_events
       = s.ear_open_events.filter (fun e => inWindow t1 e.timestamp) ∧
     (get_metrics s t1).1.blink_events.Sublist s.blink_events ∧
     (get_metrics s t1).1.ear_open_events.Sublist s.ear_open_events) ∧
    ((get_window_count s t2).1.threshold = s.threshold ∧
     (get_window_count s t2).1.consec_frames = s.consec_frames ∧
     (get_window_count s t2).1.counter = s.counter ∧
     (get_window_count s t2).1.start_timestamp = s.start_timestamp ∧
     (get_window_count s t2).1.total_blinks = s.total_blinks ∧
     (get_window_count s t2).1.blink_events
       = s.blink_events.filter (fun e => inWindow t2 e.timestamp) ∧
     (get_window_count s t2).1.ear_open_events = s.ear_open_events ∧
     (get_window_count s t2).1.blink_events.Sublist s.blink_events) := by
  refine ⟨⟨rfl, rfl, rfl, rfl, rfl, rfl, rfl, ?_, ?_⟩,
          ⟨rfl, rfl, rfl, rfl, rfl, rfl, rfl, ?_⟩⟩ <;>
    exact List.filter_sublist _

/-- C1: on a sample that ends a closure (counter positive, closure start
recorded, at least one EAR at or above the threshold) and for a
configuration with minConsecutiveFrames at least 1, update returns
false, resets the counter to 0 and the closure start to none, and it
increments totalBlinks by exactly 1 while appending exactly one event
with the reopening timestamp and duration (t - st) * 1000 if and only
if the closure lasted at least consec_frames frames and that duration
lies within [MIN_BLINK_DURATION, MAX_BLINK_DURATION]; otherwise
total_blinks and blink_events are unchanged. -/
theorem c1_reopen_acceptance (s : BlinkDetector) (l r t st : ℚ)
    (hcf : 1 ≤ s.consec_frames) (hc : 0 < s.counter)
    (hstart : s.start_timestamp = some st)
    (hopen : ¬ (l < s.threshold ∧ r < s.threshold)) :
    ∃ s1 : BlinkDetector,
      update s l r t = some (s1, false) ∧ s1.counter = 0 ∧ s1.start_timestamp = none ∧
      ((s.consec_frames ≤ s.counter ∧ MIN_BLINK_DURATION ≤ (t - st) * 1000 ∧
          (t - st) * 1000 ≤ MAX_BLINK_DURATION) →
        s1.total_blinks = s.total_blinks + 1 ∧
        s1.blink_events = s.blink_events ++ [⟨t, (t - st) * 1000⟩]) ∧
      (¬ (s.consec_frames ≤ s.counter ∧ MIN_BLINK_DURATION ≤ (t - st) * 1000 ∧
          (t - st) * 1000 ≤ MAX_BLINK_DURATION) →
        s1.total_blinks = s.total_blinks ∧ s1.blink_events = s.blink_events) := by
  simp only [update, if_neg hopen, hstart]
  by_cases hge : s.consec_frames ≤ s.counter
  · simp only [if_pos hge]
    by_cases hdur : MIN_BLINK_DURATION ≤ (t - st) * 1000 ∧ (t - st) * 1000 ≤ MAX_BLINK_DURATION
    · simp only [if_pos hdur]
      refine ⟨_, rfl, openStep_counter _ _ _ _, openStep_start _ _ _ _, ?_, ?_⟩
      · intro _
        rw [openStep_total, openStep_blinks]
        exact ⟨rfl, rfl⟩
      · intro hn
        exact absurd ⟨hge, hdur⟩ hn
    · simp only [if_neg hdur]
      refine ⟨_, rfl, openStep_counter _ _ _ _, openStep_start _ _ _ _, ?_, ?_⟩
      · intro hcontra
        exact absurd hcontra.2 hdur
      · intro _
        rw [openStep_total, openStep_blinks]
        exact ⟨rfl, rfl⟩
  · simp only [if_neg hge]
    refine ⟨_, rfl, openStep_counter _ _ _ _, openStep_start _ _ _ _, ?_, ?_⟩
    · intro hcontra
      exact absurd hcontra.1 hge
    · intro _
      rw [openStep_total, openStep_blinks]
      exact ⟨rfl, rfl⟩

/-- C1 witness: a closure of 3 frames started at time 0 and reopening at
time 1/5 (duration 200 ms) is accepted. -/
theorem c1_witness :
    1 ≤ c1_state.consec_frames ∧ 0 < c1_state.counter ∧
    ∃ s1, update c1_state (3/10) (3/10) (1/5) = some (s1, false) ∧ s1.counter = 0 ∧
      s1.total_blinks = c1_state.total_blinks + 1 := by
  refine ⟨by norm_num [c1_state, mkBlinkDetector], by norm_num [c1_state, mkBlinkDetector], ?_⟩
  obtain ⟨s1, h1, h2, -, h4, -⟩ := c1_reopen_acceptance c1_state (3/10) (3/10) (1/5) 0
    (by norm_num [c1_state, mkBlinkDetector]) (by norm_num [c1_state, mkBlinkDetector])
    (by norm_num [c1_state, mkBlinkDetector]) (by norm_num [c1_state, mkBlinkDetector])
  refine ⟨s1, h1, h2, (h4 ?_).1⟩
  norm_num [c1_state, mkBlinkDetector, MIN_BLINK_DURATION, MAX_BLINK_DURATION]

/-- C2: in any state whose counter/start pairing can arise (a missing
start time only with a counter below consec_frames), a sample with at
least one EAR at or above the threshold makes update return false with
the counter reset to 0; and only samples with both EARs strictly below
the threshold count as eyes-closed, returning true and extending the
closure counter, so a one-eyed wink never starts or extends a closure. -/
theorem c2_open_resets (s : BlinkDetector) (l r t : ℚ)
    (hsafe : s.start_timestamp = none → s.counter < s.consec_frames) :
    ((s.threshold ≤ l ∨ s.threshold ≤ r) →
      ∃ p : BlinkDetector × Bool, update s l r t = some p ∧ p.2 = false ∧ p.1.counter = 0) ∧
    ((l < s.threshold ∧ r < s.threshold) →
      ∃ p : BlinkDetector × Bool, update s l r t = some p ∧ p.2 = true ∧
        p.1.counter = s.counter + 1) := by
  constructor
  · intro hopen
    have hno : ¬ (l < s.threshold ∧ r < s.threshold) := by
      rcases hopen with h | h
      · exact fun hcl => absurd hcl.1 (not_lt.mpr h)
      · exact fun hcl => absurd hcl.2 (not_lt.mpr h)
    rw [update, if_neg hno]
    by_cases hge : s.consec_frames ≤ s.counter
    · rw [if_pos hge]
      cases hst : s.start_timestamp with
      | none => exact absurd hge (not_le.mpr (hsafe hst))
      | some st => exact ⟨_, rfl, rfl, openStep_counter _ _ _ _⟩
    · rw [if_neg hge]
      exact ⟨_, rfl, rfl, openStep_counter _ _ _ _⟩
  · intro hcl
    rw [update, if_pos hcl]
    exact ⟨_, rfl, rfl, rfl⟩

/-- C2 witness: a fresh detector on an open sample (both parts of the
conjunction exercised). -/
theorem c2_witness :
    (∃ p : BlinkDetector × Bool, update (mkBlinkDetector (22/100) 3) (1/2) (1/2) 0 = some p ∧
      p.2 = false ∧ p.1.counter = 0) ∧
    (∃ p : BlinkDetector × Bool, update (mkBlinkDetector (22/100) 3) (1/10) (1/10) 0 = some p ∧
      p.2 = true ∧ p.1.counter = (mkBlinkDetector (22/100) 3).counter + 1) := by
  constructor
  · exact (c2_open_resets (mkBlinkDetector (22/100) 3) (1/2) (1/2) 0
      (by norm_num [mkBlinkDetector])).1 (Or.inl (by norm_num [mkBlinkDetector]))
  · exact (c2_open_resets (mkBlinkDetector (22/100) 3) (1/10) (1/10) 0
      (by norm_num [mkBlinkDetector])).2 (by norm_num [mkBlinkDetector])

/-- C9: the invariant counter positive iff closure start recorded holds
for the freshly constructed detector and is preserved by update (on any
sample), get_metrics and get_window_count (at any timestamp). -/
theorem c9_invariant (thr : ℚ) (cf : ℕ) (s s1 : BlinkDetector) (b : Bool)
    (l r t t1 t2 : ℚ) (hinv : CounterInv s)
    (hup : update s l r t = some (s1, b)) :
    CounterInv (mkBlinkDetector thr cf) ∧ CounterInv s1 ∧
    CounterInv (get_metrics s t1).1 ∧ CounterInv (get_window_count s t2).1 := by
  refine ⟨by simp [CounterInv, mkBlinkDetector], ?_, hinv, hinv⟩
  rw [update] at hup
  by_cases hcl : l < s.threshold ∧ r < s.threshold
  · rw [if_pos hcl] at hup
    injection hup with h
    injection h with h1 h2
    subst h1
    unfold CounterInv
    constructor
    · intro _
      show (if s.counter = 0 then some t else s.start_timestamp) ≠ none
      by_cases h0 : s.counter = 0
      · simp [h0]
      · rw [if_neg h0]
        exact hinv.mp (Nat.pos_of_ne_zero h0)
    · intro _
      exact Nat.succ_pos _
  · rw [if_neg hcl] at hup
    by_cases hge : s.consec_frames ≤ s.counter
    · rw [if_pos hge] at hup
      cases hst : s.start_timestamp with
      | none =>
        rw [hst] at hup
        cases hup
      | some st =>
        rw [hst] at hup
        injection hup with h
        injection h with h1 h2
        subst h1
        unfold CounterInv
        rw [openStep_counter, openStep_start]
        simp
    · rw [if_neg hge] at hup
      injection hup with h
      injection h with h1 h2
      subst h1
      unfold CounterInv
      rw [openStep_counter, openStep_start]
      simp

/-- C9 witness: invariant preservation exercised on the fresh detector
and the state reached by one closed sample at time 5. -/
theorem c9_witness :
    CounterInv (mkBlinkDetector 1 3) ∧ CounterInv c9_s1 ∧
    CounterInv (get_metrics (mkBlinkDetector (22/100) 3) 5).1 ∧
    CounterInv (get_window_count (mkBlinkDetector (22/100) 3) 5).1 :=
  c9_invariant 1 3 (mkBlinkDetector (22/100) 3) c9_s1 true 0 0 5 5 5
    (by simp [CounterInv, mkBlinkDetector])
    (by norm_num [update, mkBlinkDetector, c9_s1])

lemma gaps_mean (E : List BlinkEvent) (h2 : 2 ≤ E.length) :
    (gaps (E.map BlinkEvent.timestamp)).sum /
        ((gaps (E.map BlinkEvent.timestamp)).length : ℚ)
      = ((E.map BlinkEvent.timestamp).getLast?.getD 0 -
          (E.map BlinkEvent.timestamp).head?.getD 0) / ((E.length : ℚ) - 1) := by
  cases hE : E.map BlinkEvent.timestamp with
  | nil =>
    exfalso
    have h0 : E.length = 0 := by
      have h := congrArg List.length hE
      rwa [List.length_map, List.length_nil] at h
    omega
  | cons a l =>
    have hlen : l.length + 1 = E.length := by
      have h := congrArg List.length hE
      simpa using h.symm
    rw [gaps_sum, gaps_length, List.head?_cons]
    have hcast : (((a :: l).length - 1 : ℕ) : ℚ) = (E.length : ℚ) - 1 := by
      simp only [List.length_cons, Nat.add_sub_cancel]
      rw [← hlen]
      push_cast
      ring
    rw [hcast]
    rfl

/-- C4 counterexample: a state whose window holds exactly one accepted
event (timestamp 0), read at now = 10: the code reports
interBlinkIntervalSeconds = 0, not the elapsed time 10 - 0 since the
single event that the claim asserts. -/
theorem c4_counterexample :
    (get_metrics c4_single 10).1.blink_events.length = 1 ∧
    (get_metrics c4_single 10).1.blink_events.map BlinkEvent.timestamp = [0] ∧
    (get_metrics c4_single 10).2.ibi = 0 ∧
    (get_metrics c4_single 10).2.ibi ≠ 10 - 0 := by
  norm_num [get_metrics, evict, computeMetrics, c4_single, mkBlinkDetector, inWindow,
    WINDOW_SIZE_SEC, List.filter]

/-- C4 amended: after eviction, interBlinkIntervalSeconds is the mean
gap between consecutive accepted-event timestamps (equivalently, by
telescoping, last minus first over n - 1) when the window holds n at
least 2 events, and 0 whenever n is at most 1 — including n = 1, where
the code does not report the time since the single event. -/
theorem c4_amended_ibi (s : BlinkDetector) (now : ℚ) :
    ((get_metrics s now).1.blink_events.length ≤ 1 → (get_metrics s now).2.ibi = 0) ∧
    (2 ≤ (get_metrics s now).1.blink_events.length →
      (get_metrics s now).2.ibi =
        (((get_metrics s now).1.blink_events.map BlinkEvent.timestamp).getLast?.getD 0 -
          ((get_metrics s now).1.blink_events.map BlinkEvent.timestamp).head?.getD 0) /
          (((get_metrics s now).1.blink_events.length : ℚ) - 1)) := by
  constructor
  · intro hle
    simp only [get_metrics, computeMetrics] at hle ⊢
    split_ifs <;> first
      | rfl
      | (exfalso; omega)
  · intro h2
    simp only [get_metrics, computeMetrics] at h2 ⊢
    split_ifs <;> first
      | (exfalso; omega)
      | exact gaps_mean (evict s now).blink_events h2

/-- C4 witness: two in-window events at timestamps 0 and 4 read at
now = 10 give an ibi equal to the telescoped mean gap. -/
theorem c4_amended_witness :
    2 ≤ (get_metrics c4_pair 10).1.blink_events.length ∧
    (get_metrics c4_pair 10).2.ibi =
      (((get_metrics c4_pair 10).1.blink_events.map BlinkEvent.timestamp).getLast?.getD 0 -
        ((get_metrics c4_pair 10).1.blink_events.map BlinkEvent.timestamp).head?.getD 0) /
        (((get_metrics c4_pair 10).1.blink_events.length : ℚ) - 1) :=
  ⟨by norm_num [get_metrics, evict, c4_pair, mkBlinkDetector, inWindow,
      WINDOW_SIZE_SEC, List.filter],
   (c4_amended_ibi c4_pair 10).2
    (by norm_num [get_metrics, evict, c4_pair, mkBlinkDetector, inWindow,
      WINDOW_SIZE_SEC, List.filter])⟩

/-- C7 counterexample: with all landmark indices valid, vertical
distances 1 and a near-zero horizontal distance 2 ^ (-20) (division by
approximately zero), calculate_ear returns the huge finite value 2 ^ 20,
not 0.0: only IndexError and AttributeError are caught, and float
division by a tiny nonzero norm raises nothing. -/
theorem c7_counterexample :
    EarRel earLms (0, 1) ((0, 2), (0, 2)) 1 1 (some (2 ^ 20)) ∧
    ¬ EarRel earLms (0, 1) ((0, 2), (0, 2)) 1 1 (some 0) := by
  have hres : resolvePoints earLms (0, 1) ((0, 2), (0, 2)) 1 1 =
      some ((0, 0), (1 / 2 ^ 20, 0), (0, 0), (0, 1), (0, 0), (0, 1)) := by
    norm_num [resolvePoints, getPoint, earLms]
  constructor
  · unfold EarRel
    rw [hres]
    refine ⟨1, 1, 1 / 2 ^ 20, ⟨by norm_num, by norm_num [dist2]⟩,
      ⟨by norm_num, by norm_num [dist2]⟩, ⟨by norm_num, by norm_num [dist2]⟩, ?_⟩
    rw [if_neg (by norm_num)]
    norm_num
  · intro hrel
    unfold EarRel at hrel
    rw [hres] at hrel
    obtain ⟨v1, v2, hd, ⟨hv1n, hv1⟩, ⟨hv2n, hv2⟩, ⟨hdn, hdq⟩, hres2⟩ := hrel
    have hv1e : v1 = 1 := by
      refine sq_unique hv1n (by norm_num) ?_
      rw [hv1]
      norm_num [dist2]
    have hv2e : v2 = 1 := by
      refine sq_unique hv2n (by norm_num) ?_
      rw [hv2]
      norm_num [dist2]
    have hde : hd = 1 / 2 ^ 20 := by
      refine sq_unique hdn (by norm_num) ?_
      rw [hdq]
      norm_num [dist2]
    rw [if_neg (by rw [hde]; norm_num)] at hres2
    rw [hv1e, hv2e, hde] at hres2
    injection hres2 with h
    norm_num at h

/-- C7 amended: calculate_ear does return exactly 0.0 whenever any of
the six landmark indices is out of range (the IndexError is caught),
but a degenerate horizontal distance is not guarded: division by
approximately zero yields a huge finite EAR and division by exactly
zero a non-finite float, never 0.0. -/
theorem c7_amended_degenerate (lms : List Landmark) (hIdx : ℕ × ℕ)
    (vIdx : (ℕ × ℕ) × (ℕ × ℕ)) (w h : ℚ) (r : Option ℚ)
    (hbad : lms.length ≤ hIdx.1 ∨ lms.length ≤ hIdx.2 ∨ lms.length ≤ vIdx.1.1 ∨
      lms.length ≤ vIdx.1.2 ∨ lms.length ≤ vIdx.2.1 ∨ lms.length ≤ vIdx.2.2)
    (hrel : EarRel lms hIdx vIdx w h r) : r = some 0 := by
  have hnone : resolvePoints lms hIdx vIdx w h = none := by
    rcases hbad with hb | hb | hb | hb | hb | hb
    · simp [resolvePoints, getPoint_eq_none lms w h _ hb]
    · cases h1 : getPoint lms w h hIdx.1 <;>
        simp [resolvePoints, h1, getPoint_eq_none lms w h _ hb]
    · cases h1 : getPoint lms w h hIdx.1 <;> cases h2 : getPoint lms w h hIdx.2 <;>
        simp [resolvePoints, h1, h2, getPoint_eq_none lms w h _ hb]
    · cases h1 : getPoint lms w h hIdx.1 <;> cases h2 : getPoint lms w h hIdx.2 <;>
        cases h3 : getPoint lms w h vIdx.1.1 <;>
        simp [resolvePoints, h1, h2, h3, getPoint_eq_none lms w h _ hb]
    · cases h1 : getPoint lms w h hIdx.1 <;> cases h2 : getPoint lms w h hIdx.2 <;>
        cases h3 : getPoint lms w h vIdx.1.1 <;> cases h4 : getPoint lms w h vIdx.1.2 <;>
        simp [resolvePoints, h1, h2, h3, h4, getPoint_eq_none lms w h _ hb]
    · cases h1 : getPoint lms w h hIdx.1 <;> cases h2 : getPoint lms w h hIdx.2 <;>
        cases h3 : getPoint lms w h vIdx.1.1 <;> cases h4 : getPoint lms w h vIdx.1.2 <;>
        cases h5 : getPoint lms w h vIdx.2.1 <;>
        simp [resolvePoints, h1, h2, h3, h4, h5, getPoint_eq_none lms w h _ hb]
  unfold EarRel at hrel
  rw [hnone] at hrel
  exact hrel

/-- C7 witness for the amended theorem: the horizontal index 5 is out of
range for the three-landmark list, and the only value calculate_ear can
relate to that input is 0.0. -/
theorem c7_amended_witness :
    earLms.length ≤ 5 ∧ EarRel earLms (5, 1) ((0, 2), (0, 2)) 1 1 (some 0) ∧
    (some (0 : ℚ) = some 0) :=
  ⟨by norm_num [earLms], by rfl,
   c7_amended_degenerate earLms (5, 1) ((0, 2), (0, 2)) 1 1 (some 0)
     (Or.inl (by norm_num [earLms])) (by rfl)⟩
